import Mathlib

/-!
Verification development for the `reactClientReferencesPlugin` babel pass of
`packages/babel-preset-expo/src/client-module-proxy-plugin.ts`, together with
the compiled JavaScript build artifact of the same file.

The pass inspects a module's leading directives, classifies it as a client
boundary (`"use client"`), a server boundary (`"use server"`), or neither,
collects the module's exported names, records a manifest entry in the compile
unit's metadata, and rewrites the module body.  We embed the babel AST nodes
the pass builds and reads, the pass itself (both build artifacts), and a small
operational semantics for the generated server-registration code.
-/

namespace ClientModuleProxy

/-- Declarations that an `ExportNamedDeclaration` babel node can wrap: a
variable declaration with its declared binding names (`decl.id.name` of each
declarator), or a function/class declaration with its entity name
(`node.declaration.id.name`). -/
inductive Decl where
  | variableDeclaration : List String → Decl
  | functionDeclaration : String → Decl
  | classDeclaration : String → Decl
  deriving DecidableEq, Repr

mutual

/-- The babel expression nodes built or read by the plugin (`t.identifier`,
`t.stringLiteral`, `t.nullLiteral`, `t.memberExpression` with its computed
flag, `t.callExpression`, `t.assignmentExpression`, a parameterless
`t.arrowFunctionExpression` with a block body, `t.unaryExpression`,
`t.binaryExpression`). -/
inductive Expr where
  | identifier : String → Expr
  | stringLiteral : String → Expr
  | nullLiteral : Expr
  | memberExpression : Expr → Expr → Bool → Expr
  | callExpression : Expr → List Expr → Expr
  | assignmentExpression : String → Expr → Expr → Expr
  | arrowFunctionExpression : List String → Stmt → Expr
  | unaryExpression : String → Expr → Expr
  | binaryExpression : String → Expr → Expr → Expr

/-- The babel statement nodes relevant to the pass.  `forInStatement n o b`
stands for `for (const n in o) b`.  `exportNamedDeclaration d specs` carries
the optional wrapped declaration and the exported-facing names of the
specifiers; `exportDefaultDeclaration h` records whether the default export
carries a declaration.  `otherStatement` stands for any other top-level
statement, which the pass never inspects. -/
inductive Stmt where
  | expressionStatement : Expr → Stmt
  | blockStatement : List Stmt → Stmt
  | ifStatement : Expr → Stmt → Option Stmt → Stmt
  | forInStatement : String → Expr → Stmt → Stmt
  | exportNamedDeclaration : Option Decl → List String → Stmt
  | exportDefaultDeclaration : Bool → Stmt
  | otherStatement : Nat → Stmt

end

/-- A module unit as the `Program` visitor sees it: the top-level statement
list (`path.node.body`), the leading directive strings
(`directive.value.value` of each entry of `path.node.directives`), and the
source-location context that `path.buildCodeFrameError` attaches to a
conflict error. -/
structure ModuleUnit where
  body : List Stmt
  directives : List String
  loc : String

/-- The manifest record stored under `state.file.metadata['clientReferences']`:
`{ entryPoint: outputKey, exports }`. -/
structure ManifestRecord where
  entryPoint : String
  exports : List String
  deriving DecidableEq, Repr

/-- The compile-unit state the pass reads and writes:
`state.file.opts.filename` (absent or empty in standalone invocations) and the
`clientReferences` metadata slot. -/
structure FileState where
  filename : Option String
  clientReferences : Option ManifestRecord
  deriving DecidableEq, Repr

/-- The two failures the pass can raise: the conflicting-directives code-frame
error (carrying the module's source-location context) and the
missing-filename error. -/
inductive PassError where
  | conflictingBoundaryDirectives : String → String → PassError
  | missingFilePath : String → PassError
  deriving DecidableEq, Repr

/-- Message of the conflicting-directives error thrown by the pass. -/
def conflictMessage : String :=
  "It\x27s not possible to have both `use client` and `use server` directives in the same file."

/-- Message of the missing-filename error thrown by the pass. -/
def missingFilenameMessage : String :=
  "[Babel] Expected a filename to be set in the state"

/-- Models the external Node `url.pathToFileURL(filePath).href` call: a
deterministic canonical file-URL string derived from the file path.  The
library is an external collaborator of the pass; only determinism and
injectivity on the paths at hand matter to the pass. -/
def pathToFileURL (filePath : String) : String :=
  "file://" ++ filePath

/-- The fixed adapter module name `'react-server-dom-webpack/server'`
(`reactServerAdapter` in the source). -/
def reactServerAdapter : String := "react-server-dom-webpack/server"

/-- Export names contributed by one top-level statement, exactly as the
`ExportNamedDeclaration` / `ExportDefaultDeclaration` visitors collect them:
binding names of an exported variable declaration, the entity name of an
exported function/class declaration, the exported-facing names of specifiers
when there is no wrapped declaration, and the literal `"default"` for a
default export with a declaration. -/
def exportsOfStmt (t : Stmt) : List String :=
  match t with
  | .exportNamedDeclaration (some (.variableDeclaration ns)) _ => ns
  | .exportNamedDeclaration (some (.functionDeclaration n)) _ => [n]
  | .exportNamedDeclaration (some (.classDeclaration n)) _ => [n]
  | .exportNamedDeclaration none specs => specs
  | .exportDefaultDeclaration hasDecl => if hasDecl then ["default"] else []
  | _ => []

/-- The export collection of `path.traverse({ ExportNamedDeclaration,
ExportDefaultDeclaration })` over the module: export declarations occur only
at the top level, so the traversal collects, in source order, the names of
each top-level export statement. -/
def collectExports (body : List Stmt) : List String :=
  body.flatMap exportsOfStmt

/-- The statement the client-boundary rewrite injects:
`module.exports = require('react-server-dom-webpack/server')
  .createClientModuleProxy(outputKey)`. -/
def clientProxyStatement (outputKey : String) : Stmt :=
  .expressionStatement
    (.assignmentExpression "="
      (.memberExpression (.identifier "module") (.identifier "exports") false)
      (.callExpression
        (.memberExpression
          (.callExpression (.identifier "require") [.stringLiteral reactServerAdapter])
          (.identifier "createClientModuleProxy") false)
        [.stringLiteral outputKey]))

/-- The `mmexp` expression of the source:
`require('react-server-dom-webpack/server').registerServerReference`. -/
def mmexp : Expr :=
  .memberExpression
    (.callExpression (.identifier "require") [.stringLiteral reactServerAdapter])
    (.identifier "registerServerReference") false

/-- The `loopBody` block of the source: inside the for-in loop, register
`module.exports[key]` under `key` when it is a function. -/
def serverLoopBody (outputKey : String) : Stmt :=
  .blockStatement
    [.ifStatement
      (.binaryExpression "==="
        (.unaryExpression "typeof"
          (.memberExpression
            (.memberExpression (.identifier "module") (.identifier "exports") false)
            (.identifier "key") true))
        (.stringLiteral "function"))
      (.expressionStatement
        (.callExpression mmexp
          [.memberExpression
            (.memberExpression (.identifier "module") (.identifier "exports") false)
            (.identifier "key") true,
           .stringLiteral outputKey,
           .identifier "key"]))
      none]

/-- The `forInStatement` of the source:
`for (const key in module.exports) loopBody`. -/
def serverForIn (outputKey : String) : Stmt :=
  .forInStatement "key"
    (.memberExpression (.identifier "module") (.identifier "exports") false)
    (serverLoopBody outputKey)

/-- The self-invoking statement the server-boundary rewrite injects: an
arrow-function IIFE that registers `module.exports` itself (with a `null`
name) when it is a function, and otherwise registers every function-valued
enumerable key of `module.exports` under its key. -/
def serverRegistrationStatement (outputKey : String) : Stmt :=
  .expressionStatement
    (.callExpression
      (.arrowFunctionExpression []
        (.blockStatement
          [.ifStatement
            (.binaryExpression "==="
              (.unaryExpression "typeof"
                (.memberExpression (.identifier "module") (.identifier "exports") false))
              (.stringLiteral "function"))
            (.blockStatement
              [.expressionStatement
                (.callExpression mmexp
                  [.memberExpression (.identifier "module") (.identifier "exports") false,
                   .stringLiteral outputKey,
                   .nullLiteral])])
            (some (.blockStatement [serverForIn outputKey]))]))
      [])

/-- The `Program` visitor of the TypeScript source, as a pure function: the
compile-mode signal `isServer` (`api.caller(getIsReactServer)`), the file
state, and the module unit go in; the possibly rewritten module unit and the
possibly extended file state come out, or one of the two fatal errors.  The
steps follow the source in order: directive scan, conflict check, filename
check (a missing or empty `state.file.opts.filename` is falsy and throws),
early return when neither directive is present, export collection, manifest
attachment, the client-mode early return, and finally the boundary-specific
rewrite (only the client branch clears `path.node.body` and
`path.node.directives`; the server branch pushes onto the existing body). -/
def reactClientReferencesPlugin (isServer : Bool) (st : FileState) (m : ModuleUnit) :
    Except PassError (ModuleUnit × FileState) :=
  let isUseClient := m.directives.contains "use client"
  let isUseServer := m.directives.contains "use server"
  if isUseClient && isUseServer then
    .error (.conflictingBoundaryDirectives m.loc conflictMessage)
  else
    match st.filename with
    | none => .error (.missingFilePath missingFilenameMessage)
    | some filePath =>
      if filePath.isEmpty then
        .error (.missingFilePath missingFilenameMessage)
      else
        let outputKey := pathToFileURL filePath
        if !isUseClient && !isUseServer then
          .ok (m, st)
        else
          let exps := collectExports m.body
          let st' : FileState :=
            { st with clientReferences := some { entryPoint := outputKey, exports := exps } }
          if !isServer then
            .ok (m, st')
          else if isUseClient then
            .ok ({ m with body := [clientProxyStatement outputKey], directives := [] }, st')
          else
            .ok ({ m with body := m.body ++ [serverRegistrationStatement outputKey] }, st')

/-- The `Program` visitor of the compiled JavaScript build artifact, as a pure
function.  It differs from the TypeScript source in two points: there is no
`isServer` caller signal (the rewrite is unconditional once a boundary
directive is found), and export collection plus manifest attachment happen
only inside the `if (isUseClient)` branch, so `"use server"` modules get no
manifest record. -/
def reactClientReferencesPluginCompiled (st : FileState) (m : ModuleUnit) :
    Except PassError (ModuleUnit × FileState) :=
  let isUseClient := m.directives.contains "use client"
  let isUseServer := m.directives.contains "use server"
  if isUseClient && isUseServer then
    .error (.conflictingBoundaryDirectives m.loc conflictMessage)
  else
    match st.filename with
    | none => .error (.missingFilePath missingFilenameMessage)
    | some filePath =>
      if filePath.isEmpty then
        .error (.missingFilePath missingFilenameMessage)
      else
        let outputKey := pathToFileURL filePath
        if !isUseClient && !isUseServer then
          .ok (m, st)
        else
          let record : ManifestRecord :=
            { entryPoint := outputKey, exports := collectExports m.body }
          let st' : FileState :=
            if isUseClient then { st with clientReferences := some record } else st
          if isUseClient then
            .ok ({ m with body := [clientProxyStatement outputKey], directives := [] }, st')
          else
            .ok ({ m with body := m.body ++ [serverRegistrationStatement outputKey] }, st')

/-- Manifest slot of a pass result, or `none` when the pass failed. -/
def resultManifest (r : Except PassError (ModuleUnit × FileState)) :
    Option (Option ManifestRecord) :=
  match r with
  | .ok p => some p.2.clientReferences
  | .error _ => none

/-- Directive list of a pass result, or `none` when the pass failed. -/
def resultDirectives (r : Except PassError (ModuleUnit × FileState)) :
    Option (List String) :=
  match r with
  | .ok p => some p.1.directives
  | .error _ => none

/-- Body length of a pass result, or `none` when the pass failed. -/
def resultBodyLength (r : Except PassError (ModuleUnit × FileState)) : Option Nat :=
  match r with
  | .ok p => some p.1.body.length
  | .error _ => none

/-- Error of a pass result, or `none` when the pass succeeded. -/
def resultError (r : Except PassError (ModuleUnit × FileState)) : Option PassError :=
  match r with
  | .ok _ => none
  | .error e => some e

/-- Runtime JavaScript values as far as the generated code observes them:
functions (identified by a tag, standing in for reference identity), plain
objects as ordered lists of own enumerable properties, strings, booleans,
`null`, and `undefined`.  JavaScript numbers are floating-point and are not
modeled; no construct of the emitted code produces or inspects one. -/
inductive JSValue where
  | vfunc : Nat → JSValue
  | vobj : List (String × JSValue) → JSValue
  | vstr : String → JSValue
  | vbool : Bool → JSValue
  | vnull : JSValue
  | vundefined : JSValue

/-- The `typeof` operator on the modeled values. -/
def typeofStr (v : JSValue) : String :=
  match v with
  | .vfunc _ => "function"
  | .vobj _ => "object"
  | .vstr _ => "string"
  | .vbool _ => "boolean"
  | .vnull => "object"
  | .vundefined => "undefined"

/-- JavaScript truthiness of the modeled values. -/
def truthy (v : JSValue) : Bool :=
  match v with
  | .vfunc _ => true
  | .vobj _ => true
  | .vstr s => !s.isEmpty
  | .vbool b => b
  | .vnull => false
  | .vundefined => false

/-- Strict equality `===` on the modeled values.  Reference equality between
two objects is not modeled (the emitted code never compares objects); the
result is `false` there. -/
def strictEq (a b : JSValue) : Bool :=
  match a, b with
  | .vstr x, .vstr y => x == y
  | .vbool x, .vbool y => x == y
  | .vfunc i, .vfunc j => i == j
  | .vnull, .vnull => true
  | .vundefined, .vundefined => true
  | _, _ => false

/-- Coercion of a computed-member key to a property name, as JavaScript
stringifies property keys.  The emitted code only ever uses the loop variable
`key`, which is always a string. -/
def toPropKey (v : JSValue) : String :=
  match v with
  | .vstr s => s
  | .vbool b => if b then "true" else "false"
  | .vnull => "null"
  | .vundefined => "undefined"
  | .vfunc _ => "function"
  | .vobj _ => "[object Object]"

/-- Property read.  Objects look up the first matching own property; strings
expose their characters under their decimal indices; everything else reads as
`undefined`. -/
def getProp (v : JSValue) (k : String) : JSValue :=
  match v with
  | .vobj kvs =>
    match kvs.find? (fun p => p.1 == k) with
    | some p => p.2
    | none => .vundefined
  | .vstr s =>
    match k.toNat? with
    | some i =>
      match s.toList.get? i with
      | some c => .vstr (String.mk [c])
      | none => .vundefined
    | none => .vundefined
  | _ => .vundefined

/-- Keys a `for (const key in v)` loop enumerates: the own enumerable
property names of an object in order, the decimal indices of a string, and
nothing for the remaining values. -/
def enumKeys (v : JSValue) : List String :=
  match v with
  | .vobj kvs => kvs.map Prod.fst
  | .vstr s => (List.range s.length).map toString
  | _ => []

/-- One `registerServerReference(value, moduleId, name)` call recorded by the
semantics of the emitted code; `name = none` models the `null` argument. -/
structure Reg where
  value : JSValue
  moduleId : String
  name : Option String

/-- Registrations performed by one call of the registration primitive, from
its evaluated arguments: the module id argument is a string literal in the
emitted code, and the name argument is `null` or the string loop key. -/
def regList (vs : List JSValue) : List Reg :=
  match vs with
  | [v, .vstr i, .vnull] => [⟨v, i, none⟩]
  | [v, .vstr i, .vstr k] => [⟨v, i, some k⟩]
  | _ => []

/-- Variable lookup in the runtime environment; unbound identifiers evaluate
to `undefined` (the emitted code only reads `module` and the loop variable
`key`). -/
def lookupId (env : List (String × JSValue)) (n : String) : JSValue :=
  match env.find? (fun p => p.1 == n) with
  | some p => p.2
  | none => .vundefined

/-- Initial runtime environment of a module whose `module.exports` value is
`v`. -/
def moduleEnv (v : JSValue) : List (String × JSValue) :=
  [("module", .vobj [("exports", v)])]

mutual

/-- Value and registration effects of evaluating an emitted expression.  The
`registerServerReference` member of a `require` of the adapter module is the
registration primitive (its linking is external to the pass); calling a
parameterless arrow function runs its block; an assignment stores into the
module system, which the semantics does not track, so only its right-hand
side is evaluated; other unmodeled operations evaluate their parts and yield
`undefined`. -/
def evalExpr : List (String × JSValue) → Expr → JSValue × List Reg
  | env, .identifier n => (lookupId env n, [])
  | _, .stringLiteral s => (.vstr s, [])
  | _, .nullLiteral => (.vnull, [])
  | env, .memberExpression o (.identifier p) false =>
    let r := evalExpr env o
    (getProp r.1 p, r.2)
  | env, .memberExpression o p true =>
    let r := evalExpr env o
    let rp := evalExpr env p
    (getProp r.1 (toPropKey rp.1), r.2 ++ rp.2)
  | env, .memberExpression o _ false =>
    let r := evalExpr env o
    (.vundefined, r.2)
  | env, .callExpression (.memberExpression
      (.callExpression (.identifier "require") [.stringLiteral _])
      (.identifier "registerServerReference") false) args =>
    let r := evalArgs env args
    (.vundefined, r.2 ++ regList r.1)
  | env, .callExpression (.arrowFunctionExpression [] bdy) [] =>
    (.vundefined, runStmt env bdy)
  | env, .callExpression cal args =>
    let r := evalExpr env cal
    let ra := evalArgs env args
    (.vundefined, r.2 ++ ra.2)
  | env, .assignmentExpression _ _ r => evalExpr env r
  | _, .arrowFunctionExpression _ _ => (.vfunc 0, [])
  | env, .unaryExpression "typeof" a =>
    let r := evalExpr env a
    (.vstr (typeofStr r.1), r.2)
  | env, .unaryExpression _ a =>
    let r := evalExpr env a
    (.vundefined, r.2)
  | env, .binaryExpression "===" l r =>
    let rl := evalExpr env l
    let rr := evalExpr env r
    (.vbool (strictEq rl.1 rr.1), rl.2 ++ rr.2)
  | env, .binaryExpression _ l r =>
    let rl := evalExpr env l
    let rr := evalExpr env r
    (.vundefined, rl.2 ++ rr.2)
termination_by _ e => (sizeOf e, 0)

/-- Values and registration effects of evaluating an argument list from left
to right. -/
def evalArgs : List (String × JSValue) → List Expr → List JSValue × List Reg
  | _, [] => ([], [])
  | env, e :: es =>
    let r := evalExpr env e
    let rs := evalArgs env es
    (r.1 :: rs.1, r.2 ++ rs.2)
termination_by _ es => (sizeOf es, 0)

/-- Registrations performed by running an emitted statement. -/
def runStmt : List (String × JSValue) → Stmt → List Reg
  | env, .expressionStatement e => (evalExpr env e).2
  | env, .blockStatement ss => runStmts env ss
  | env, .ifStatement t c a =>
    let r := evalExpr env t
    if truthy r.1 then r.2 ++ runStmt env c
    else
      match a with
      | some s => r.2 ++ runStmt env s
      | none => r.2
  | env, .forInStatement x o bdy =>
    let r := evalExpr env o
    r.2 ++ runForKeys env (enumKeys r.1) x bdy
  | _, .exportNamedDeclaration _ _ => []
  | _, .exportDefaultDeclaration _ => []
  | _, .otherStatement _ => []
termination_by _ s => (sizeOf s, 0)

/-- Registrations performed by running a statement list in order. -/
def runStmts : List (String × JSValue) → List Stmt → List Reg
  | _, [] => []
  | env, s :: ss => runStmt env s ++ runStmts env ss
termination_by _ ss => (sizeOf ss, 0)

/-- Registrations performed by a `for (const x in _)` loop over the given
keys: the body runs once per key with the loop variable bound to it. -/
def runForKeys : List (String × JSValue) → List String → String → Stmt → List Reg
  | _, [], _, _ => []
  | env, k :: ks, x, bdy =>
    runStmt ((x, JSValue.vstr k) :: env) bdy ++ runForKeys env ks x bdy
termination_by _ ks _ bdy => (sizeOf bdy, ks.length + 1)

end

end ClientModuleProxy

namespace ClientModuleProxy

/-- C1: a module whose directive list contains both `"use client"` and
`"use server"` makes the pass fail with the conflicting-directives error
carrying the module's source-location context, whatever the compile mode,
file state, and export shape; the error is raised before the filename check,
the export collection, the manifest attachment, and the rewrite, so no state
is touched. -/
theorem conflicting_directives_fatal (b : Bool) (st : FileState) (m : ModuleUnit)
    (hc : "use client" ∈ m.directives) (hs : "use server" ∈ m.directives) :
    reactClientReferencesPlugin b st m =
      .error (.conflictingBoundaryDirectives m.loc conflictMessage) := by
  simp [reactClientReferencesPlugin, hc, hs]

/-- Witness for `conflicting_directives_fatal` at a concrete module. -/
theorem conflicting_directives_fatal_witness :
    reactClientReferencesPlugin true { filename := some "/app/a.js", clientReferences := none }
        { body := [.otherStatement 0], directives := ["use client", "use server"],
          loc := "a.js:1" } =
      .error (.conflictingBoundaryDirectives "a.js:1" conflictMessage) :=
  conflicting_directives_fatal true _ _ (by decide) (by decide)

/-- C6: a module carrying neither boundary directive passes through
unchanged, with no manifest record attached, in either compile mode (the
filename must be present and nonempty, otherwise the pass fails instead of
completing). -/
theorem no_directive_passthrough (b : Bool) (st : FileState) (f : String) (m : ModuleUnit)
    (hf : st.filename = some f) (hne : f.isEmpty = false)
    (hc : "use client" ∉ m.directives) (hs : "use server" ∉ m.directives) :
    reactClientReferencesPlugin b st m = .ok (m, st) := by
  simp [reactClientReferencesPlugin, hf, hne, hc, hs]

/-- Witness for `no_directive_passthrough` at a concrete module. -/
theorem no_directive_passthrough_witness :
    reactClientReferencesPlugin false { filename := some "/app/plain.js", clientReferences := none }
        { body := [.otherStatement 3], directives := ["use strict"], loc := "plain.js:1" } =
      .ok ({ body := [.otherStatement 3], directives := ["use strict"], loc := "plain.js:1" },
           { filename := some "/app/plain.js", clientReferences := none }) :=
  no_directive_passthrough false _ "/app/plain.js" _ rfl rfl (by decide) (by decide)

/-- C10: the filename check runs before the no-directive early return: a
module with neither boundary directive still makes the pass fail with the
missing-filename error when `state.file.opts.filename` is unset. -/
theorem missing_filename_checked_first (b : Bool) (st : FileState) (m : ModuleUnit)
    (hf : st.filename = none)
    (hc : "use client" ∉ m.directives) (hs : "use server" ∉ m.directives) :
    reactClientReferencesPlugin b st m = .error (.missingFilePath missingFilenameMessage) := by
  simp [reactClientReferencesPlugin, hf, hc, hs]

/-- Witness for `missing_filename_checked_first` at a concrete module. -/
theorem missing_filename_checked_first_witness :
    reactClientReferencesPlugin true { filename := none, clientReferences := none }
        { body := [.otherStatement 1], directives := [], loc := "anon:1" } =
      .error (.missingFilePath missingFilenameMessage) :=
  missing_filename_checked_first true _ _ rfl (by decide) (by decide)

/-- C2: on a `"use client"`-only module with a file location, once the rewrite
applies (server compile mode), the resulting body is exactly the single
`module.exports = require(adapter).createClientModuleProxy(outputKey)`
statement with the canonical file URL as its sole literal argument, the
directive list is cleared, and nothing of the original body survives; the
manifest is attached alongside. -/
theorem client_rewrite_shape (st : FileState) (f : String) (m : ModuleUnit)
    (hf : st.filename = some f) (hne : f.isEmpty = false)
    (hc : "use client" ∈ m.directives) (hs : "use server" ∉ m.directives) :
    reactClientReferencesPlugin true st m =
      .ok ({ m with body := [clientProxyStatement (pathToFileURL f)], directives := [] },
           { st with clientReferences := some ⟨pathToFileURL f, collectExports m.body⟩ }) := by
  simp [reactClientReferencesPlugin, hf, hne, hc, hs]

/-- Witness for `client_rewrite_shape` at a concrete module. -/
theorem client_rewrite_shape_witness :
    reactClientReferencesPlugin true { filename := some "/app/c.js", clientReferences := none }
        { body := [.exportNamedDeclaration (some (.variableDeclaration ["foo"])) []],
          directives := ["use client"], loc := "c.js:1" } =
      .ok ({ body := [clientProxyStatement (pathToFileURL "/app/c.js")], directives := [],
             loc := "c.js:1" },
           { filename := some "/app/c.js",
             clientReferences :=
               some { entryPoint := pathToFileURL "/app/c.js", exports := ["foo"] } }) :=
  client_rewrite_shape _ "/app/c.js" _ rfl rfl (by decide) (by decide)

/-- C5: a module with exactly one boundary directive and a file location gets
the manifest record `{ entryPoint := canonical file URL, exports := collected
export names }` attached to the metadata slot, for either boundary kind and
in either compile mode (independent of the rewrite that follows). -/
theorem manifest_attached_single_directive (b : Bool) (st : FileState) (f : String)
    (m : ModuleUnit) (hf : st.filename = some f) (hne : f.isEmpty = false)
    (h : ("use client" ∈ m.directives ∧ "use server" ∉ m.directives) ∨
         ("use server" ∈ m.directives ∧ "use client" ∉ m.directives)) :
    resultManifest (reactClientReferencesPlugin b st m) =
      some (some { entryPoint := pathToFileURL f, exports := collectExports m.body }) := by
  rcases h with ⟨hc, hs⟩ | ⟨hs, hc⟩ <;>
    cases b <;>
      simp [reactClientReferencesPlugin, resultManifest, hf, hne, hc, hs]

/-- Witness for `manifest_attached_single_directive` at a concrete
`"use server"` module in client compile mode. -/
theorem manifest_attached_single_directive_witness :
    resultManifest (reactClientReferencesPlugin false
        { filename := some "/app/s.js", clientReferences := none }
        { body := [.exportNamedDeclaration (some (.functionDeclaration "doThing")) []],
          directives := ["use server"], loc := "s.js:1" }) =
      some (some { entryPoint := pathToFileURL "/app/s.js", exports := ["doThing"] }) :=
  manifest_attached_single_directive false _ "/app/s.js" _ rfl rfl (Or.inr (by decide))

/-- C7: export collection returns, in source order, the binding names of
exported variable declarations, the entity name of exported function/class
declarations, the exported-facing names of specifier-form exports, and the
literal `"default"` for a default export with a declaration; in particular a
`"use client"` module exporting `foo` and a default yields the manifest
exports `["foo", "default"]`. -/
theorem export_collection_order (b : Bool) (st : FileState) (f loc : String)
    (ns specs : List String) (fn cn : String)
    (hf : st.filename = some f) (hne : f.isEmpty = false) :
    resultManifest (reactClientReferencesPlugin b st
        { body := [.otherStatement 0,
                   .exportNamedDeclaration (some (.variableDeclaration ns)) [],
                   .exportNamedDeclaration (some (.functionDeclaration fn)) [],
                   .exportNamedDeclaration (some (.classDeclaration cn)) [],
                   .exportNamedDeclaration none specs,
                   .exportDefaultDeclaration true],
          directives := ["use client"], loc := loc }) =
      some (some { entryPoint := pathToFileURL f,
                   exports := ns ++ [fn] ++ [cn] ++ specs ++ ["default"] }) ∧
    resultManifest (reactClientReferencesPlugin b st
        { body := [.exportNamedDeclaration (some (.variableDeclaration ["foo"])) [],
                   .exportDefaultDeclaration true],
          directives := ["use client"], loc := loc }) =
      some (some { entryPoint := pathToFileURL f, exports := ["foo", "default"] }) := by
  cases b <;>
    refine ⟨?_, ?_⟩ <;>
      simp [reactClientReferencesPlugin, resultManifest, collectExports, exportsOfStmt, hf, hne]

/-- Witness for `export_collection_order`: the `foo`/default module of the
spec's example yields manifest exports `["foo", "default"]`. -/
theorem export_collection_order_witness :
    resultManifest (reactClientReferencesPlugin true
        { filename := some "/app/e.js", clientReferences := none }
        { body := [.exportNamedDeclaration (some (.variableDeclaration ["foo"])) [],
                   .exportDefaultDeclaration true],
          directives := ["use client"], loc := "e.js:1" }) =
      some (some { entryPoint := pathToFileURL "/app/e.js", exports := ["foo", "default"] }) :=
  (export_collection_order true _ "/app/e.js" "e.js:1" [] [] "f" "c" rfl rfl).2

/-- Helper: a successful run of the pass presupposes a present, nonempty
filename and never changes it. -/
theorem pass_ok_filename (b : Bool) (st : FileState) (m m' : ModuleUnit) (st' : FileState)
    (h : reactClientReferencesPlugin b st m = .ok (m', st')) :
    ∃ f, st.filename = some f ∧ f.isEmpty = false ∧ st'.filename = some f := by
  rcases hfn : st.filename with _ | f
  · exfalso
    by_cases hc : "use client" ∈ m.directives <;>
      by_cases hs : "use server" ∈ m.directives <;>
        simp [reactClientReferencesPlugin, hfn, hc, hs] at h
  · by_cases hemp : f.isEmpty = true
    · exfalso
      by_cases hc : "use client" ∈ m.directives <;>
        by_cases hs : "use server" ∈ m.directives <;>
          simp [reactClientReferencesPlugin, hfn, hemp, hc, hs] at h
    · have hemp' : f.isEmpty = false := by simpa using hemp
      refine ⟨f, rfl, hemp', ?_⟩
      by_cases hc : "use client" ∈ m.directives <;>
        by_cases hs : "use server" ∈ m.directives <;>
          cases b <;>
            simp [reactClientReferencesPlugin, hfn, hemp', hc, hs] at h <;>
              simp [← h.2, hfn]

/-- Helper: on a module carrying neither boundary directive the pass returns
the module and the state untouched. -/
theorem pass_noop_aux (b : Bool) (st : FileState) (f : String) (m : ModuleUnit)
    (hf : st.filename = some f) (hne : f.isEmpty = false)
    (hc : "use client" ∉ m.directives) (hs : "use server" ∉ m.directives) :
    reactClientReferencesPlugin b st m = .ok (m, st) := by
  simp [reactClientReferencesPlugin, hf, hne, hc, hs]

/-- C8: applying the pass to a module already rewritten by it — so that its
directive list has been cleared of boundary directives — is a no-op: the
statement list, the directive list, and the attached metadata come back
unchanged, in either compile mode. -/
theorem second_application_noop (b b' : Bool) (st st' : FileState) (m m' : ModuleUnit)
    (h1 : reactClientReferencesPlugin b st m = .ok (m', st'))
    (hc : "use client" ∉ m'.directives) (hs : "use server" ∉ m'.directives) :
    reactClientReferencesPlugin b' st' m' = .ok (m', st') := by
  obtain ⟨f, _, hne, hf'⟩ := pass_ok_filename b st m m' st' h1
  exact pass_noop_aux b' st' f m' hf' hne hc hs

/-- Witness for `second_application_noop`: a client module rewritten once is
untouched by a second application. -/
theorem second_application_noop_witness :
    reactClientReferencesPlugin false
        { filename := some "/app/w.js",
          clientReferences := some ⟨pathToFileURL "/app/w.js", ["foo"]⟩ }
        { body := [clientProxyStatement (pathToFileURL "/app/w.js")], directives := [],
          loc := "w.js:1" } =
      .ok ({ body := [clientProxyStatement (pathToFileURL "/app/w.js")], directives := [],
             loc := "w.js:1" },
           { filename := some "/app/w.js",
             clientReferences := some ⟨pathToFileURL "/app/w.js", ["foo"]⟩ }) :=
  second_application_noop true false
    { filename := some "/app/w.js", clientReferences := none }
    { filename := some "/app/w.js",
      clientReferences := some ⟨pathToFileURL "/app/w.js", ["foo"]⟩ }
    { body := [.exportNamedDeclaration (some (.variableDeclaration ["foo"])) []],
      directives := ["use client"], loc := "w.js:1" }
    { body := [clientProxyStatement (pathToFileURL "/app/w.js")], directives := [],
      loc := "w.js:1" }
    (by rfl) (by decide) (by decide)

/-- C4 counterexample: on a `"use server"` module the pass does not clear the
directive list and does not replace the body — the registration statement is
appended to the original single-statement body, so the claim that both lists
are cleared for every resolved boundary kind fails at this input. -/
theorem rewrite_clears_only_client_cex :
    resultDirectives (reactClientReferencesPlugin true
        { filename := some "/app/s.js", clientReferences := none }
        { body := [.otherStatement 7], directives := ["use server"], loc := "s.js:1" }) ≠
      some [] ∧
    resultBodyLength (reactClientReferencesPlugin true
        { filename := some "/app/s.js", clientReferences := none }
        { body := [.otherStatement 7], directives := ["use server"], loc := "s.js:1" }) =
      some 2 := by
  constructor
  · decide
  · rfl

/-- C4 amended: only the ClientBoundary rewrite clears the statement and
directive lists and fully replaces the body with the proxy statement; the
ServerBoundary rewrite appends the registration statement to the original
body and leaves the directive list untouched. -/
theorem rewrite_clears_only_client (st : FileState) (f : String) (m : ModuleUnit)
    (hf : st.filename = some f) (hne : f.isEmpty = false) :
    ("use client" ∈ m.directives → "use server" ∉ m.directives →
      Except.map Prod.fst (reactClientReferencesPlugin true st m) =
        .ok { m with body := [clientProxyStatement (pathToFileURL f)], directives := [] }) ∧
    ("use server" ∈ m.directives → "use client" ∉ m.directives →
      Except.map Prod.fst (reactClientReferencesPlugin true st m) =
        .ok { m with body := m.body ++ [serverRegistrationStatement (pathToFileURL f)] }) := by
  constructor <;> intro h1 h2 <;>
    simp [reactClientReferencesPlugin, Except.map, hf, hne, h1, h2]

/-- Witness for `rewrite_clears_only_client` at a concrete server module. -/
theorem rewrite_clears_only_client_witness :
    Except.map Prod.fst (reactClientReferencesPlugin true
        { filename := some "/app/s2.js", clientReferences := none }
        { body := [.otherStatement 7], directives := ["use server"], loc := "s2.js:1" }) =
      .ok { body := [.otherStatement 7, serverRegistrationStatement (pathToFileURL "/app/s2.js")],
            directives := ["use server"], loc := "s2.js:1" } :=
  (rewrite_clears_only_client _ "/app/s2.js" _ rfl rfl).2 (by decide) (by decide)

/-- C9 counterexample: on a `"use server"` module under the server compile
signal, the TypeScript source records the manifest while the compiled
JavaScript artifact does not, so the two build artifacts do not implement the
same metadata attachment. -/
theorem variants_differ_cex :
    resultManifest (reactClientReferencesPlugin true
        { filename := some "/app/v.js", clientReferences := none }
        { body := [.exportNamedDeclaration (some (.functionDeclaration "doThing")) []],
          directives := ["use server"], loc := "v.js:1" }) ≠
      resultManifest (reactClientReferencesPluginCompiled
        { filename := some "/app/v.js", clientReferences := none }
        { body := [.exportNamedDeclaration (some (.functionDeclaration "doThing")) []],
          directives := ["use server"], loc := "v.js:1" }) := by
  decide

/-- C9 amended: the two build artifacts produce identical errors on every
input, identical rewritten statements and directives whenever the TypeScript
source runs under the server compile signal, identical full results on
modules without boundary directives, and identical full results on
`"use client"` modules under the server compile signal; they differ in that
the compiled artifact attaches no manifest to `"use server"` modules and
ignores the compile-mode signal. -/
theorem variants_agreement (b : Bool) (st : FileState) (m : ModuleUnit) :
    resultError (reactClientReferencesPlugin b st m) =
      resultError (reactClientReferencesPluginCompiled st m) ∧
    Except.map Prod.fst (reactClientReferencesPlugin true st m) =
      Except.map Prod.fst (reactClientReferencesPluginCompiled st m) ∧
    ("use client" ∉ m.directives → "use server" ∉ m.directives →
      reactClientReferencesPlugin b st m = reactClientReferencesPluginCompiled st m) ∧
    ("use client" ∈ m.directives → "use server" ∉ m.directives →
      reactClientReferencesPlugin true st m = reactClientReferencesPluginCompiled st m) := by
  refine ⟨?_, ?_, ?_, ?_⟩
  · by_cases hc : "use client" ∈ m.directives <;>
      by_cases hs : "use server" ∈ m.directives <;>
        rcases hfn : st.filename with _ | f <;>
          cases b <;>
            simp [reactClientReferencesPlugin, reactClientReferencesPluginCompiled,
                  resultError, hc, hs, hfn] <;>
              by_cases hemp : f.isEmpty = true <;>
                simp [hemp]
  · by_cases hc : "use client" ∈ m.directives <;>
      by_cases hs : "use server" ∈ m.directives <;>
        rcases hfn : st.filename with _ | f <;>
          simp [reactClientReferencesPlugin, reactClientReferencesPluginCompiled,
                Except.map, hc, hs, hfn]
    by_cases hemp : f.isEmpty = true <;> simp [hemp, Except.map]
  · intro hc hs
    rcases hfn : st.filename with _ | f <;>
      simp [reactClientReferencesPlugin, reactClientReferencesPluginCompiled,
            hc, hs, hfn]
  · intro hc hs
    rcases hfn : st.filename with _ | f <;>
      simp [reactClientReferencesPlugin, reactClientReferencesPluginCompiled,
            hc, hs, hfn]

/-- Witness for `variants_agreement`: the two artifacts coincide on a
concrete `"use client"` module under the server compile signal. -/
theorem variants_agreement_witness :
    reactClientReferencesPlugin true
        { filename := some "/app/u.js", clientReferences := none }
        { body := [.exportNamedDeclaration (some (.variableDeclaration ["foo"])) []],
          directives := ["use client"], loc := "u.js:1" } =
      reactClientReferencesPluginCompiled
        { filename := some "/app/u.js", clientReferences := none }
        { body := [.exportNamedDeclaration (some (.variableDeclaration ["foo"])) []],
          directives := ["use client"], loc := "u.js:1" } :=
  (variants_agreement true _ _).2.2.2 (by decide) (by decide)

/-- Helper: looking up `module` in the initial module environment yields the
module object. -/
theorem lookupId_module (v : JSValue) :
    lookupId (moduleEnv v) "module" = .vobj [("exports", v)] := rfl

/-- Helper: looking up `module` below one loop-variable binding yields the
module object. -/
theorem lookupId_module_cons (w v : JSValue) :
    lookupId (("key", w) :: moduleEnv v) "module" = .vobj [("exports", v)] := rfl

/-- Helper: looking up the loop variable yields its bound value. -/
theorem lookupId_key_cons (w v : JSValue) :
    lookupId (("key", w) :: moduleEnv v) "key" = w := rfl

/-- Helper: reading `exports` off the module object yields the export
value. -/
theorem getProp_exports (v : JSValue) :
    getProp (.vobj [("exports", v)]) "exports" = v := rfl

/-- Helper: a string property key coerces to itself. -/
theorem toPropKey_vstr (s : String) : toPropKey (.vstr s) = s := rfl

/-- Helper: one pass through the emitted loop body with the loop variable
bound to `k` registers `module.exports[k]` under `k` exactly when it is a
function. -/
theorem runStmt_serverLoopBody (url : String) (v : JSValue) (k : String) :
    runStmt (("key", JSValue.vstr k) :: moduleEnv v) (serverLoopBody url) =
      if typeofStr (getProp v k) == "function"
      then [⟨getProp v k, url, some k⟩] else [] := by
  by_cases hk : typeofStr (getProp v k) == "function" <;>
    simp [serverLoopBody, runStmt, runStmts, evalExpr, evalArgs, mmexp,
          lookupId_module_cons, lookupId_key_cons, getProp_exports, toPropKey_vstr,
          strictEq, truthy, regList, hk]

/-- Helper: running the emitted for-in loop body over any key list registers,
in order, exactly the function-valued keys of the runtime `module.exports`
value under their names. -/
theorem runForKeys_serverLoop (url : String) (v : JSValue) (ks : List String) :
    runForKeys (moduleEnv v) ks "key" (serverLoopBody url) =
      (ks.filter fun k => typeofStr (getProp v k) == "function").map
        fun k => ⟨getProp v k, url, some k⟩ := by
  induction ks with
  | nil => simp [runForKeys]
  | cons k ks ih =>
    by_cases hk : typeofStr (getProp v k) == "function" <;>
      simp [runForKeys, runStmt_serverLoopBody, hk, ih]

/-- C3: on a `"use server"`-only module with a file location, once the
rewrite applies (server compile mode), the pass appends exactly one
self-invoking wrapper statement, and running that statement registers
`(module.exports, canonical URL, null)` when the runtime export value is a
function, and otherwise registers `(module.exports[key], canonical URL, key)`
for exactly the enumerable keys whose value is a function, in enumeration
order. -/
theorem server_rewrite_registration (st : FileState) (f : String) (m : ModuleUnit)
    (hf : st.filename = some f) (hne : f.isEmpty = false)
    (hs : "use server" ∈ m.directives) (hc : "use client" ∉ m.directives) :
    reactClientReferencesPlugin true st m =
      .ok ({ m with body := m.body ++ [serverRegistrationStatement (pathToFileURL f)] },
           { st with clientReferences := some ⟨pathToFileURL f, collectExports m.body⟩ }) ∧
    ∀ v : JSValue,
      runStmt (moduleEnv v) (serverRegistrationStatement (pathToFileURL f)) =
        if typeofStr v = "function" then [⟨v, pathToFileURL f, none⟩]
        else
          ((enumKeys v).filter fun k => typeofStr (getProp v k) == "function").map
            fun k => ⟨getProp v k, pathToFileURL f, some k⟩ := by
  constructor
  · simp [reactClientReferencesPlugin, hf, hne, hs, hc]
  · intro v
    by_cases hfun : typeofStr v = "function"
    · simp [serverRegistrationStatement, serverForIn, runStmt, runStmts, evalExpr,
            evalArgs, mmexp, lookupId_module, getProp_exports, strictEq, truthy,
            regList, hfun]
    · simp [serverRegistrationStatement, serverForIn, runStmt, runStmts, evalExpr,
            evalArgs, mmexp, lookupId_module, getProp_exports, strictEq, truthy,
            regList, hfun, runForKeys_serverLoop]

/-- Witness for `server_rewrite_registration` at a concrete module and a
concrete runtime export object with one function-valued key. -/
theorem server_rewrite_registration_witness :
    reactClientReferencesPlugin true
        { filename := some "/app/act.js", clientReferences := none }
        { body := [.exportNamedDeclaration (some (.functionDeclaration "doThing")) []],
          directives := ["use server"], loc := "act.js:1" } =
      .ok ({ body := [.exportNamedDeclaration (some (.functionDeclaration "doThing")) [],
                      serverRegistrationStatement (pathToFileURL "/app/act.js")],
             directives := ["use server"], loc := "act.js:1" },
           { filename := some "/app/act.js",
             clientReferences := some ⟨pathToFileURL "/app/act.js", ["doThing"]⟩ }) ∧
    runStmt (moduleEnv (.vobj [("doThing", .vfunc 1), ("n", .vstr "x")]))
        (serverRegistrationStatement (pathToFileURL "/app/act.js")) =
      [⟨.vfunc 1, pathToFileURL "/app/act.js", some "doThing"⟩] := by
  have h := server_rewrite_registration
    { filename := some "/app/act.js", clientReferences := none } "/app/act.js"
    { body := [.exportNamedDeclaration (some (.functionDeclaration "doThing")) []],
      directives := ["use server"], loc := "act.js:1" }
    rfl rfl (by decide) (by decide)
  refine ⟨h.1, ?_⟩
  rw [h.2 (.vobj [("doThing", .vfunc 1), ("n", .vstr "x")])]
  simp [typeofStr, enumKeys, getProp]

end ClientModuleProxy
